import Mathlib

set_option maxHeartbeats 1000000

/- Shallow embedding of the application submission engine of the
jobs_finder repository: the AI answer-resolution service of
backend/app/services/ai.py and the navigation, audit and teardown logic
of backend/app/services/applicator.py. External library calls (the
generative model, JSON parsing of its reply, the browser driver) are
modelled as oracle parameters; everything else follows the Python source
line by line. -/

/-- Per-user store of call timestamps, as in the module-level dictionary
of ai.py mapping a user id to a list of call times. A user id absent
from the dictionary is represented by the empty list, matching the
setdefault call of the source. -/
def RateStore : Type := Int → List Int

/-- Maximum API calls per window, from ai.py. -/
def RATE_LIMIT_MAX : Nat := 15

/-- Window length in seconds, from ai.py. -/
def RATE_LIMIT_WINDOW : Int := 60

/-- The purge of old entries performed by check_rate_limit: keep the
timestamps t with now - t strictly below the window length, as in the
list comprehension of the source. -/
def purgeCalls (now : Int) (calls : List Int) : List Int :=
  calls.filter (fun t => decide (now - t < RATE_LIMIT_WINDOW))

/-- Embedding of the rate-limit check of ai.py. The Python argument can
be None or an integer; None and 0 are both falsy, so both take the early
True branch without touching the store. On a truthy user id the stored
list is purged, the call is refused when the purged list already has
RATE_LIMIT_MAX entries, and otherwise the current time is appended.
Returns the allow flag together with the updated store. -/
def check_rate_limit (store : RateStore) (userId : Option Int) (now : Int) :
    Bool × RateStore :=
  match userId with
  | none => (true, store)
  | some u =>
    if u = 0 then (true, store)
    else
      let calls := purgeCalls now (store u)
      if RATE_LIMIT_MAX ≤ calls.length then
        (false, fun k => if k = u then calls else store k)
      else
        (true, fun k => if k = u then calls ++ [now] else store k)

/-- One row of the AI usage ledger, as written by the usage logging
method of AIService. -/
structure UsageRecord where
  userId : Int
  serviceType : String
  inputTokens : Nat
  outputTokens : Nat
  totalTokens : Nat
  status : String
  errorMessage : Option String
deriving DecidableEq

/-- Embedding of the usage-logging method of AIService: with a falsy
user id (None or 0) it returns immediately and writes nothing; otherwise
it appends one record to the ledger. The token counts come from the
response metadata and are passed in directly. -/
def log_usage (ledger : List UsageRecord) (userId : Option Int)
    (serviceType : String) (inputTokens outputTokens totalTokens : Nat)
    (status : String) (errorMessage : Option String) : List UsageRecord :=
  match userId with
  | none => ledger
  | some u =>
    if u = 0 then ledger
    else ledger ++ [⟨u, serviceType, inputTokens, outputTokens, totalTokens, status, errorMessage⟩]

/-- One form question as passed to answer_form_questions: the dictionary
with keys id, question, type and options built by the applicator. -/
structure Question where
  id : String
  question : String
  type : String
  options : List String
deriving DecidableEq

/-- Character-wise lowering of a string, modelling the Python lower
call used for the case-insensitive option comparison (ASCII case, which
is what the option values of the source use). -/
def lowerString (s : String) : String :=
  String.mk (s.data.map Char.toLower)

/-- The repair applied by answer_form_questions to a select or radio
answer that is not an option member: the first option equal to it under
case-insensitive comparison if one exists, else the first option. -/
def fixAnswer (options : List String) (v : String) : String :=
  match options.find? (fun opt => lowerString opt == lowerString v) with
  | some matched => matched
  | none => options.headD ""

/-- Resolution of one select or radio answer against the option list:
kept when already a member, otherwise repaired by fixAnswer. -/
def resolveAnswer (options : List String) (v : String) : String :=
  if v ∈ options then v else fixAnswer options v

/-- One pass of the validation loop of answer_form_questions for a
single question: when the reply dictionary maps the question id and the
question is a select or radio with a non-empty option list, a value that
is not an option member is replaced in the dictionary, first trying a
case-insensitive match, else the first option. -/
def validateStep (answers : String → Option String) (q : Question) :
    String → Option String :=
  match answers q.id with
  | none => answers
  | some v =>
    if (q.type = "select" ∨ q.type = "radio") ∧ q.options ≠ [] then
      if v ∈ q.options then answers
      else fun k => if k = q.id then some (fixAnswer q.options v) else answers k
    else answers

/-- The full validation loop of answer_form_questions over the question
list, threading the reply dictionary. -/
def validate_answers (questions : List Question) (answers : String → Option String) :
    String → Option String :=
  questions.foldl validateStep answers

/-- The profile dictionary sent to the AI, with the linkedin_cookies key
removed, as in the dictionary comprehension of answer_form_questions. -/
def sanitize_profile (userProfile : List (String × String)) :
    List (String × String) :=
  userProfile.filter (fun kv => decide (kv.fst ≠ "linkedin_cookies"))

/-- Rendering of a string in double quotes, modelling the JSON
serialisation used for the prompt. Escaping of inner characters is not
modelled; the theorems only need the rendering to be a function of its
input. -/
def jsonQuote (s : String) : String := "\x22" ++ s ++ "\x22"

/-- Rendering of a list of strings, modelling json.dumps on a list. -/
def dumpsStringList (xs : List String) : String :=
  "[" ++ String.intercalate ", " (xs.map jsonQuote) ++ "]"

/-- Rendering of a string-to-string dictionary, modelling json.dumps on
the sanitized profile. -/
def dumpsPairs (kvs : List (String × String)) : String :=
  "\x7b" ++ String.intercalate ", "
      (kvs.map (fun kv => jsonQuote kv.fst ++ ": " ++ jsonQuote kv.snd)) ++ "\x7d"

/-- Rendering of one question dictionary, modelling json.dumps on the
question list entries. -/
def dumpsQuestion (q : Question) : String :=
  "\x7b" ++ jsonQuote "id" ++ ": " ++ jsonQuote q.id ++ ", "
      ++ jsonQuote "question" ++ ": " ++ jsonQuote q.question ++ ", "
      ++ jsonQuote "type" ++ ": " ++ jsonQuote q.type ++ ", "
      ++ jsonQuote "options" ++ ": " ++ dumpsStringList q.options ++ "\x7d"

/-- Rendering of the question list, modelling json.dumps. -/
def dumpsQuestions (qs : List Question) : String :=
  "[" ++ String.intercalate ", " (qs.map dumpsQuestion) ++ "]"

/-- The prompt built by answer_form_questions: fixed header, resume
excerpt of at most 8000 characters (the Python slice) or the text
Not available when the resume text is empty (falsy), the sanitized
profile, job description excerpt of at most 5000 characters or
Not available, the serialised question list, and the fixed instruction
block (abbreviated here to a constant suffix; it does not depend on the
inputs). -/
def build_form_prompt (questions : List Question) (jobDescription resumeText : String)
    (userProfile : List (String × String)) : String :=
  "You are a job application assistant helping a candidate apply for a position.\n"
  ++ "Your goal is to answer the application form questions in the way most likely to get the candidate an interview.\n\n"
  ++ "CANDIDATE RESUME:\n"
  ++ (if resumeText = "" then "Not available" else resumeText.take 8000) ++ "\n\n"
  ++ "CANDIDATE PROFILE:\n" ++ dumpsPairs (sanitize_profile userProfile) ++ "\n\n"
  ++ "JOB DESCRIPTION:\n"
  ++ (if jobDescription = "" then "Not available" else jobDescription.take 5000) ++ "\n\n"
  ++ "FORM QUESTIONS:\n" ++ dumpsQuestions questions ++ "\n\n"
  ++ "INSTRUCTIONS: for each question provide the best answer from the resume and profile; for select or radio questions the answer MUST be exactly one of the provided options; return ONLY a valid JSON object mapping each question id to the answer string."

/-- Result of answer_form_questions: the returned answer dictionary, the
rate store after the call, and whether the generative model was
invoked. -/
structure AFQResult where
  answers : String → Option String
  store : RateStore
  callMade : Bool

/-- Embedding of answer_form_questions of AIService. The oracle models
the external generative model together with the JSON parsing of its
reply: it maps the prompt to the parsed answer dictionary, or none when
the call or the parsing raises, in which case the source catches the
exception and returns the empty dictionary. With a missing model or an
empty question list the empty dictionary is returned before the
rate-limit check; a rate-limit refusal also returns the empty dictionary
without a call. -/
def answer_form_questions (modelPresent : Bool) (store : RateStore)
    (userId : Option Int) (now : Int) (questions : List Question)
    (jobDescription resumeText : String) (userProfile : List (String × String))
    (oracle : String → Option (String → Option String)) : AFQResult :=
  if modelPresent = false ∨ questions = [] then ⟨fun _ => none, store, false⟩
  else
    let p := check_rate_limit store userId now
    if p.fst = false then ⟨fun _ => none, p.snd, false⟩
    else
      match oracle (build_form_prompt questions jobDescription resumeText userProfile) with
      | none => ⟨fun _ => none, p.snd, true⟩
      | some raw => ⟨validate_answers questions raw, p.snd, true⟩

/-- One resume candidate as passed to analyze_job_match: the dictionary
with keys id and extracted_text built by apply_to_job_task. -/
structure ResumeData where
  id : Int
  extracted_text : String
deriving DecidableEq

/-- Embedding of analyze_job_match of AIService. aiReply models the
external call together with the integer parsing of its text: some n
when the call succeeded and the reply parsed as the integer n, none when
the call or the parsing raised, in which case the source catches the
exception. Returns the chosen resume id (none only on an empty candidate
list) together with the rate store after the call. On a missing model,
a rate-limit refusal, an error, or an id outside the candidate set, the
result is the id of the first candidate in input order. -/
def analyze_job_match (modelPresent : Bool) (store : RateStore)
    (userId : Option Int) (now : Int) (resumes : List ResumeData)
    (aiReply : Option Int) : Option Int × RateStore :=
  match resumes with
  | [] => (none, store)
  | r0 :: _ =>
    if modelPresent = false then (some r0.id, store)
    else
      let p := check_rate_limit store userId now
      if p.fst = false then (some r0.id, p.snd)
      else
        match aiReply with
        | none => (some r0.id, p.snd)
        | some best =>
          if best ∈ resumes.map (fun r => r.id) then (some best, p.snd)
          else (some r0.id, p.snd)

/-- Sequential rate-limit checks at the given call times, threading the
store and collecting the allow decisions in order. -/
def runChecks (store : RateStore) (userId : Option Int) :
    List Int → List Bool × RateStore
  | [] => ([], store)
  | t :: ts =>
    let p := check_rate_limit store userId t
    let rest := runChecks p.snd userId ts
    (p.fst :: rest.fst, rest.snd)

/-- Following the words of the specification, for comparison with the
source: the deterministic resume-selection fallback the specification
describes, namely the candidate with the latest last-used timestamp, or
the first candidate in input order when no candidate carries a
timestamp. lastUsed assigns an optional last-used time to a candidate
id. -/
def specMostRecentFallback (resumes : List ResumeData) (lastUsed : Int → Option Int) :
    Option Int :=
  match resumes with
  | [] => none
  | r0 :: _ =>
    match resumes.filterMap (fun r => (lastUsed r.id).map (fun t => (r.id, t))) with
    | [] => some r0.id
    | w0 :: ws =>
      some (ws.foldl (fun best q => if best.snd < q.snd then q else best) w0).fst

/-- One step page of the LinkedIn Easy Apply modal as observed by the
form-filling loop: which markers are present on the page, and which log
entries the per-step handlers (resume step handler, phone inputs,
additional-questions handler) append on this step. -/
structure StepPage where
  isResumeStep : Bool
  resumeLog : List String
  phoneLog : List String
  hasFormQuestions : Bool
  questionsLog : List String
  foundSubmit : Bool
  reviewButton : Bool
  nextFound : Bool

/-- The log entries a single iteration of the form-filling loop appends
before its advance decision, with the exact format strings of the
source; step is the zero-based loop index. The additional-questions
handler runs only when the step is not a resume step. -/
def stepEntries (p : StepPage) (step : Nat) : List String :=
  (if p.isResumeStep = true then
      ("Resume step detected (step " ++ toString (step + 1) ++ ")") :: p.resumeLog
    else [])
  ++ p.phoneLog
  ++ (if p.hasFormQuestions = true ∧ p.isResumeStep = false then
      ("Additional questions detected (step " ++ toString (step + 1) ++ ")") :: p.questionsLog
    else [])

/-- The log entries produced by the form-filling loop from a given
zero-based loop index with the given number of remaining iterations; the
source runs it with MAX_STEPS iterations. When a submit or review
control is visible the loop logs reaching the final step, clicks a
review control when that is what it found, and breaks; otherwise it
clicks a next control and continues, or logs that no control was found
and breaks. -/
def fill_form_log (pages : Nat → StepPage) : Nat → Nat → List String
  | _, 0 => []
  | step, fuel + 1 =>
    let p := pages step
    let entries := stepEntries p step
    if p.foundSubmit = true then
      entries ++ ["Reached final step at step " ++ toString (step + 1)]
        ++ (if p.reviewButton = true then ["Clicked Review"] else [])
    else if p.nextFound = true then
      (entries ++ ["Clicked Next (step " ++ toString (step + 1) ++ ")"])
        ++ fill_form_log pages (step + 1) fuel
    else
      entries ++ ["No Next/Continue/Submit button found at step " ++ toString (step + 1)]

/-- Number of loop iterations the form-filling loop executes, with the
same branching as fill_form_log. -/
def fill_form_steps (pages : Nat → StepPage) : Nat → Nat → Nat
  | _, 0 => 0
  | step, fuel + 1 =>
    let p := pages step
    if p.foundSubmit = true then 1
    else if p.nextFound = true then 1 + fill_form_steps pages (step + 1) fuel
    else 1

/-- The safety limit for multi-step forms, from the source. -/
def MAX_STEPS : Nat := 10

/-- The log of one run of the form-filling method, which iterates from
step zero under the safety limit. -/
def fill_linkedin_form_log (pages : Nat → StepPage) : List String :=
  fill_form_log pages 0 MAX_STEPS

/-- The number of iterations of one run of the form-filling method. -/
def fill_linkedin_form_steps (pages : Nat → StepPage) : Nat :=
  fill_form_steps pages 0 MAX_STEPS

/-- Environment of one apply_linkedin run: whether the Easy Apply button
is found, the step pages seen by the form loop, and whether a submit
button is clickable after the loop returns. -/
structure ApplyEnv where
  easyApplyFound : Bool
  pages : Nat → StepPage
  finalSubmitFound : Bool

/-- Embedding of apply_linkedin on the exception-free driver paths: the
ordered audit log and the success flag. The source opens the job page,
looks for the Easy Apply button (failing when absent), fills the form,
then looks for the final submit button, failing when it cannot be
found. -/
def apply_linkedin (env : ApplyEnv) (jobUrl : String) : Bool × List String :=
  let log0 := ["Opening LinkedIn job: " ++ jobUrl, "Looking for Easy Apply button"]
  if env.easyApplyFound = false then
    (false, log0 ++ ["Error: Could not find Easy Apply button"])
  else
    let log1 := log0 ++ ["Clicked Easy Apply", "Filling application form"]
      ++ fill_linkedin_form_log env.pages ++ ["Submitting application"]
    if env.finalSubmitFound = false then
      (false, log1 ++ ["Error: Could not find Submit button"])
    else
      (true, log1 ++ ["Application submitted successfully"])

/-- The fields of the application row that apply_to_job_task writes from
the result of the platform-specific apply call. -/
structure TaskResult where
  status : String
  errorMessage : Option String
  automationLog : List String

/-- Embedding of the result handling of apply_to_job_task for a LinkedIn
job: on success the application status becomes applied; on failure it
becomes failed with the fixed error message, and the automation log is
stored in both cases. -/
def apply_to_job_task_result (env : ApplyEnv) (jobUrl : String) : TaskResult :=
  let p := apply_linkedin env jobUrl
  if p.fst = true then ⟨"applied", none, p.snd⟩
  else ⟨"failed", some "Application automation failed", p.snd⟩

/-- The driver-owning state of a JobApplicator: the optional driver
handle and, to record the side effect, how many times quit was called on
a driver. -/
structure Applicator where
  driver : Option Unit
  quitCount : Nat
deriving DecidableEq

/-- Embedding of the close-driver method: when a driver is open it is
quit and the reference cleared, otherwise nothing happens. -/
def close_driver (a : Applicator) : Applicator :=
  match a.driver with
  | some _ => ⟨none, a.quitCount + 1⟩
  | none => a

/-- Environment of one apply_to_job_task run, for the teardown model:
whether the application, job and user rows were all found, and whether
driver initialisation returned without raising. -/
structure TaskRunEnv where
  recordsPresent : Bool
  initDriverOk : Bool

/-- The applicator state at the end of apply_to_job_task, after its
finally clause. When the database records are missing the task returns
before an applicator is created, so the finally clause finds none and
closes nothing. Otherwise an applicator is created, driver
initialisation either succeeds (setting the driver) or raises (leaving
it unset), and on every later path, body success or raise included, the
finally clause closes the driver. -/
def task_final_applicator (env : TaskRunEnv) : Option Applicator :=
  if env.recordsPresent = false then none
  else
    let a0 : Applicator := ⟨none, 0⟩
    let a1 : Applicator := if env.initDriverOk = true then ⟨some (), a0.quitCount⟩ else a0
    some (close_driver a1)

/-- A validation pass for one question leaves every other key of the
reply dictionary unchanged. -/
theorem validateStep_ne (answers : String → Option String) (q : Question)
    (k : String) (h : k ≠ q.id) : validateStep answers q k = answers k := by
  cases hq : answers q.id with
  | none => simp only [validateStep, hq]
  | some v =>
    simp only [validateStep, hq]
    by_cases hc : (q.type = "select" ∨ q.type = "radio") ∧ q.options ≠ []
    · rw [if_pos hc]
      by_cases hm : v ∈ q.options
      · rw [if_pos hm]
      · rw [if_neg hm, if_neg h]
    · rw [if_neg hc]

/-- The validation loop leaves keys that are not question ids
unchanged. -/
theorem validate_answers_ne (questions : List Question)
    (answers : String → Option String) (k : String)
    (h : k ∉ questions.map Question.id) :
    validate_answers questions answers k = answers k := by
  induction questions generalizing answers with
  | nil => rfl
  | cons q qs ih =>
    simp only [List.map_cons, List.mem_cons, not_or] at h
    have hstep : validate_answers (q :: qs) answers
        = validate_answers qs (validateStep answers q) := rfl
    rw [hstep, ih (validateStep answers q) h.2, validateStep_ne answers q k h.1]

/-- The repaired value is always drawn from the option list. -/
theorem fixAnswer_mem (options : List String) (v : String) (h : options ≠ []) :
    fixAnswer options v ∈ options := by
  unfold fixAnswer
  cases hf : options.find? (fun opt => lowerString opt == lowerString v) with
  | some m => exact List.mem_of_find?_eq_some hf
  | none =>
    cases options with
    | nil => exact absurd rfl h
    | cons o os => simp only [List.headD_cons]; exact List.mem_cons_self o os

/-- The resolved value is always drawn from the option list. -/
theorem resolveAnswer_mem (options : List String) (v : String) (h : options ≠ []) :
    resolveAnswer options v ∈ options := by
  unfold resolveAnswer
  by_cases hm : v ∈ options
  · rw [if_pos hm]; exact hm
  · rw [if_neg hm]; exact fixAnswer_mem options v h

/-- A validation pass for a select or radio question with a non-empty
option list resolves the value stored under its own id. -/
theorem validateStep_resolves (answers : String → Option String) (q : Question)
    (v : String) (hv : answers q.id = some v)
    (ht : q.type = "select" ∨ q.type = "radio") (ho : q.options ≠ []) :
    validateStep answers q q.id = some (resolveAnswer q.options v) := by
  simp only [validateStep, hv]
  rw [if_pos ⟨ht, ho⟩]
  by_cases hm : v ∈ q.options
  · rw [if_pos hm, hv]
    unfold resolveAnswer
    rw [if_pos hm]
  · rw [if_neg hm, if_pos rfl]
    unfold resolveAnswer
    rw [if_neg hm]

/-- The full validation loop resolves the value of each select or radio
question with a non-empty option list, provided the question ids are
pairwise distinct. -/
theorem validate_answers_resolves (questions : List Question)
    (answers : String → Option String) (q : Question) (v : String)
    (hq : q ∈ questions) (hnd : (questions.map Question.id).Nodup)
    (ht : q.type = "select" ∨ q.type = "radio") (ho : q.options ≠ [])
    (hv : answers q.id = some v) :
    validate_answers questions answers q.id = some (resolveAnswer q.options v) := by
  induction questions generalizing answers with
  | nil => cases hq
  | cons q0 qs ih =>
    simp only [List.map_cons, List.nodup_cons] at hnd
    have hstep : validate_answers (q0 :: qs) answers
        = validate_answers qs (validateStep answers q0) := rfl
    rw [hstep]
    rcases List.mem_cons.mp hq with heq | hmem
    · subst heq
      rw [validate_answers_ne qs _ q.id hnd.1]
      exact validateStep_resolves answers q v hv ht ho
    · have hne : q.id ≠ q0.id := by
        intro hcontra
        exact hnd.1 (hcontra ▸ List.mem_map_of_mem Question.id hmem)
      have hv1 : validateStep answers q0 q.id = some v := by
        rw [validateStep_ne answers q0 q.id hne]; exact hv
      exact ih (validateStep answers q0) hmem hnd.2 hv1

/-- C1: for every question of kind select or radio with a non-empty
option list (question ids pairwise distinct, as the scraper produces
them), whenever the AI reply maps the id of that question, the
dictionary returned by answer_form_questions assigns it the resolved
value - kept when already an option member, the canonical-casing option
on a case-insensitive match, else the first option - and that value is
always a member of the option list; in particular one select question
with options Yes and No and an AI reply of yes resolves to Yes, so an
invalid value is never returned for such a question. -/
theorem C1_select_radio_membership :
    (∀ (store : RateStore) (userId : Option Int) (now : Int)
      (questions : List Question) (jobDescription resumeText : String)
      (userProfile : List (String × String))
      (oracle : String → Option (String → Option String))
      (raw : String → Option String) (q : Question) (v : String),
      (check_rate_limit store userId now).fst = true →
      oracle (build_form_prompt questions jobDescription resumeText userProfile)
        = some raw →
      q ∈ questions → (questions.map Question.id).Nodup →
      (q.type = "select" ∨ q.type = "radio") → q.options ≠ [] →
      raw q.id = some v →
      (answer_form_questions true store userId now questions jobDescription
          resumeText userProfile oracle).answers q.id
        = some (resolveAnswer q.options v)
      ∧ resolveAnswer q.options v ∈ q.options)
    ∧ (answer_form_questions true (fun _ => []) (some 1) 0
        [⟨"q0", "Are you authorized to work?", "select", ["Yes", "No"]⟩]
        "jd" "resume" []
        (fun _ => some (fun k => if k = "q0" then some "yes" else none))).answers "q0"
      = some "Yes" := by
  constructor
  · intro store userId now questions jobDescription resumeText userProfile oracle
      raw q v hr horacle hq hnd ht ho hv
    have hne : ¬(true = false ∨ questions = []) := by
      rintro (hcontra | hcontra)
      · cases hcontra
      · subst hcontra; cases hq
    have hrf : ¬((check_rate_limit store userId now).fst = false) := by
      rw [hr]; exact fun hcontra => by cases hcontra
    unfold answer_form_questions
    rw [if_neg hne, if_neg hrf, horacle]
    exact ⟨validate_answers_resolves questions raw q v hq hnd ht ho hv,
      resolveAnswer_mem q.options v ho⟩
  · decide

/-- The form-filling loop never executes more iterations than its
remaining iteration budget, whatever the pages show. -/
theorem fill_form_steps_le (pages : Nat → StepPage) (fuel : Nat) :
    ∀ step, fill_form_steps pages step fuel ≤ fuel := by
  induction fuel with
  | zero => intro step; simp [fill_form_steps]
  | succ n ih =>
    intro step
    simp only [fill_form_steps]
    by_cases h1 : (pages step).foundSubmit = true
    · rw [if_pos h1]; omega
    · rw [if_neg h1]
      by_cases h2 : (pages step).nextFound = true
      · rw [if_pos h2]
        have := ih (step + 1)
        omega
      · rw [if_neg h2]; omega

/-- When every page shows a next control and never a submit control, the
form-filling loop spends its whole iteration budget. -/
theorem fill_form_steps_continue (pages : Nat → StepPage)
    (hsub : ∀ s, (pages s).foundSubmit = false)
    (hnext : ∀ s, (pages s).nextFound = true) (fuel : Nat) :
    ∀ step, fill_form_steps pages step fuel = fuel := by
  induction fuel with
  | zero => intro step; rfl
  | succ n ih =>
    intro step
    simp only [fill_form_steps]
    rw [if_neg (by rw [hsub step]; exact fun hcontra => by cases hcontra),
      if_pos (hnext step), ih (step + 1)]
    omega

/-- C2: the navigation loop of the form-filling state machine executes
at most MAX_STEPS iterations (and MAX_STEPS is 10) for every possible
sequence of step pages, and in the always-continued case - a next
control found and clicked on every iteration, never a submit control -
it executes exactly MAX_STEPS iterations and stops, so no input form can
cause an unbounded loop. -/
theorem C2_navigation_terminates :
    MAX_STEPS = 10
    ∧ (∀ pages : Nat → StepPage, fill_linkedin_form_steps pages ≤ MAX_STEPS)
    ∧ (∀ pages : Nat → StepPage, (∀ s, (pages s).foundSubmit = false) →
        (∀ s, (pages s).nextFound = true) →
        fill_linkedin_form_steps pages = MAX_STEPS) := by
  refine ⟨rfl, ?_, ?_⟩
  · intro pages
    exact fill_form_steps_le pages MAX_STEPS 0
  · intro pages hsub hnext
    exact fill_form_steps_continue pages hsub hnext MAX_STEPS 0

/-- A step page on which a next control is present and no submit or
review control appears, with no resume step, no phone inputs and no
additional questions. -/
def contPage : StepPage :=
  ⟨false, [], [], false, [], false, false, true⟩

/-- C2 witness: on pages that always show a next control and never a
submit control, the loop runs exactly MAX_STEPS iterations, and that is
within the cap. -/
theorem C2_navigation_terminates_witness :
    fill_linkedin_form_steps (fun _ => contPage) = MAX_STEPS
    ∧ fill_linkedin_form_steps (fun _ => contPage) ≤ MAX_STEPS :=
  ⟨C2_navigation_terminates.2.2 (fun _ => contPage) (fun _ => rfl) (fun _ => rfl),
    C2_navigation_terminates.2.1 (fun _ => contPage)⟩

/-- The radio question used to witness the select and radio validation
theorem. -/
def witnessRadioQ : Question :=
  ⟨"qa", "Do you have a degree?", "radio", ["Yes", "No"]⟩

/-- The parsed AI reply used to witness the select and radio validation
theorem: it answers the radio question with a value in the wrong
casing. -/
def witnessRadioRaw : String → Option String :=
  fun k => if k = "qa" then some "NO" else none

/-- C1 witness: the validation theorem applied at one concrete radio
question with options Yes and No and the reply NO, which resolves to the
canonical casing No, a member of the options. -/
theorem C1_select_radio_membership_witness :
    (answer_form_questions true (fun _ => []) none 0 [witnessRadioQ]
        "" "" [] (fun _ => some witnessRadioRaw)).answers "qa"
      = some (resolveAnswer ["Yes", "No"] "NO")
    ∧ resolveAnswer ["Yes", "No"] "NO" ∈ ["Yes", "No"] := by
  refine C1_select_radio_membership.1 (fun _ => []) none 0 [witnessRadioQ]
    "" "" [] (fun _ => some witnessRadioRaw) witnessRadioRaw witnessRadioQ "NO"
    rfl rfl ?_ ?_ ?_ ?_ rfl
  · exact List.mem_cons_self witnessRadioQ []
  · decide
  · exact Or.inr rfl
  · decide

/-- An apply environment in which the Easy Apply button is found, every
step page shows a next control and never a submit control, and no submit
button is clickable after the loop: the step cap is exhausted and the
submission fails. -/
def contEnv : ApplyEnv :=
  ⟨true, fun _ => contPage, false⟩

/-- C4 counterexample: on a run that exhausts the step cap (a next
control found and clicked on all ten iterations), the task does end with
status failed, but the audit log does not contain the entry
step limit exceeded - no such entry is ever produced by the code. -/
theorem C4_counterexample :
    (apply_to_job_task_result contEnv "https://www.linkedin.com/jobs/view/1").status
      = "failed"
    ∧ "step limit exceeded"
        ∉ (apply_to_job_task_result contEnv "https://www.linkedin.com/jobs/view/1").automationLog := by
  constructor
  · rfl
  · decide

/-- C4 amended: for every run in which the navigation loop exhausts its
step cap (an advance control found on every one of the maximum number of
iterations, no submit control ever reached, and no submit button
clickable after the loop), the loop runs exactly MAX_STEPS iterations
and the task ends with status failed and the fixed error message
Application automation failed; the audit log records the failure as the
entry Error: Could not find Submit button - the source has no
step limit exceeded entry. -/
theorem C4_step_cap_failure (env : ApplyEnv) (jobUrl : String)
    (hsub : ∀ s, (env.pages s).foundSubmit = false)
    (hnext : ∀ s, (env.pages s).nextFound = true)
    (hea : env.easyApplyFound = true)
    (hfs : env.finalSubmitFound = false) :
    fill_linkedin_form_steps env.pages = MAX_STEPS
    ∧ (apply_to_job_task_result env jobUrl).status = "failed"
    ∧ (apply_to_job_task_result env jobUrl).errorMessage
        = some "Application automation failed"
    ∧ "Error: Could not find Submit button"
        ∈ (apply_to_job_task_result env jobUrl).automationLog := by
  have hsteps : fill_linkedin_form_steps env.pages = MAX_STEPS :=
    fill_form_steps_continue env.pages hsub hnext MAX_STEPS 0
  have happly : apply_linkedin env jobUrl
      = (false,
        (["Opening LinkedIn job: " ++ jobUrl, "Looking for Easy Apply button"]
          ++ ["Clicked Easy Apply", "Filling application form"]
          ++ fill_linkedin_form_log env.pages ++ ["Submitting application"])
        ++ ["Error: Could not find Submit button"]) := by
    unfold apply_linkedin
    rw [hea, hfs]
    simp
  have hres : apply_to_job_task_result env jobUrl
      = ⟨"failed", some "Application automation failed",
        (["Opening LinkedIn job: " ++ jobUrl, "Looking for Easy Apply button"]
          ++ ["Clicked Easy Apply", "Filling application form"]
          ++ fill_linkedin_form_log env.pages ++ ["Submitting application"])
        ++ ["Error: Could not find Submit button"]⟩ := by
    unfold apply_to_job_task_result
    rw [happly]
    rfl
  refine ⟨hsteps, ?_, ?_, ?_⟩
  · rw [hres]
  · rw [hres]
  · rw [hres]
    exact List.mem_append_right _ (List.mem_singleton.mpr rfl)

/-- C4 witness: the amended step-cap theorem applied at the concrete
always-continue environment. -/
theorem C4_step_cap_failure_witness :
    fill_linkedin_form_steps contEnv.pages = MAX_STEPS
    ∧ (apply_to_job_task_result contEnv "https://www.linkedin.com/jobs/view/2").status
        = "failed"
    ∧ (apply_to_job_task_result contEnv "https://www.linkedin.com/jobs/view/2").errorMessage
        = some "Application automation failed"
    ∧ "Error: Could not find Submit button"
        ∈ (apply_to_job_task_result contEnv "https://www.linkedin.com/jobs/view/2").automationLog :=
  C4_step_cap_failure contEnv "https://www.linkedin.com/jobs/view/2"
    (fun _ => rfl) (fun _ => rfl) rfl rfl

/-- First resume candidate of the C3 counterexample (used longer ago). -/
def cand1 : ResumeData := ⟨1, "golang staff engineer resume"⟩

/-- Second resume candidate of the C3 counterexample (used most
recently). -/
def cand2 : ResumeData := ⟨2, "junior designer resume"⟩

/-- Last-used timestamps of the C3 counterexample: candidate 2 was used
more recently than candidate 1. -/
def lastUsedTimes : Int → Option Int :=
  fun i => if i = 1 then some 100 else if i = 2 then some 200 else none

/-- C3 counterexample: with two candidates carrying last-used
timestamps, candidate 2 being the most recently used, and the AI
returning the id 99 outside the candidate set, the source falls back to
candidate 1 (the first in input order), not to the most-recently-used
candidate 2 that the claim prescribes. -/
theorem C3_counterexample :
    (analyze_job_match true (fun _ => []) (some 7) 0 [cand1, cand2] (some 99)).fst
      = some 1
    ∧ specMostRecentFallback [cand1, cand2] lastUsedTimes = some 2
    ∧ some (1 : Int) ≠ some (2 : Int) := by
  refine ⟨by decide, by decide, by decide⟩

/-- C3 amended: whenever the AI ranking call errors out (none) or
returns an id outside the candidate set, analyze_job_match falls back to
the first candidate in input order, regardless of any last-used
timestamps; the recency heuristic of the source lives only in the
browser resume-picker step, not in this fallback. -/
theorem C3_fallback_first_in_order (store : RateStore) (userId : Option Int)
    (now : Int) (r0 : ResumeData) (rest : List ResumeData) (aiReply : Option Int)
    (hbad : ∀ b, aiReply = some b → b ∉ (r0 :: rest).map (fun r => r.id)) :
    (analyze_job_match true store userId now (r0 :: rest) aiReply).fst = some r0.id := by
  by_cases hallow : (check_rate_limit store userId now).fst = false
  · simp [analyze_job_match, hallow]
  · cases aiReply with
    | none => simp [analyze_job_match, hallow]
    | some b =>
      have hmem : b ∉ (r0 :: rest).map (fun r => r.id) := hbad b rfl
      have hmem2 : ¬(b = r0.id ∨ ∃ a ∈ rest, a.id = b) := by simpa using hmem
      simp [analyze_job_match, hallow, hmem2]

/-- C3 witness: the amended fallback theorem applied at the two concrete
candidates with an out-of-set AI reply. -/
theorem C3_fallback_first_in_order_witness :
    (analyze_job_match true (fun _ => []) (some 7) 0 [cand1, cand2] (some 99)).fst
      = some cand1.id :=
  C3_fallback_first_in_order (fun _ => []) (some 7) 0 cand1 [cand2] (some 99)
    (by intro b hb; injection hb with h; subst h; decide)

/-- C5: a check for a user who already has RATE_LIMIT_MAX or more calls
with timestamps inside the trailing window is refused, while a
simultaneous check for a different user with fewer in-window calls is
allowed, and the refused check does not touch the stored window of the
other user; moreover, starting from an empty store, sixteen consecutive
calls of one user inside one window are allowed fifteen times and the
sixteenth is refused. -/
theorem C5_sliding_window_per_user (store : RateStore) (now : Int) (u u2 : Int)
    (hu : u ≠ 0) (hu2 : u2 ≠ 0) (hne : u2 ≠ u)
    (hfull : RATE_LIMIT_MAX ≤ (purgeCalls now (store u)).length)
    (hfree : (purgeCalls now (store u2)).length < RATE_LIMIT_MAX) :
    (check_rate_limit store (some u) now).fst = false
    ∧ (check_rate_limit store (some u2) now).fst = true
    ∧ (check_rate_limit store (some u) now).snd u2 = store u2
    ∧ (runChecks (fun _ => []) (some 1)
        ((List.range 16).map Int.ofNat)).fst
      = List.replicate 15 true ++ [false] := by
  refine ⟨?_, ?_, ?_, by decide⟩
  · simp [check_rate_limit, hu, hfull]
  · simp only [check_rate_limit, if_neg hu2]
    rw [if_neg (by omega)]
  · simp only [check_rate_limit, if_neg hu, if_pos hfull]
    rw [if_neg hne]

/-- The concrete store used to witness the sliding-window theorem: user
1 has fifteen in-window timestamps, user 2 has none. -/
def fullStore : RateStore :=
  fun k => if k = 1 then (List.range 15).map Int.ofNat else []

/-- C5 witness: the sliding-window theorem applied at the concrete store
with user 1 saturated and user 2 free, checked at time 20. -/
theorem C5_sliding_window_per_user_witness :
    (check_rate_limit fullStore (some 1) 20).fst = false
    ∧ (check_rate_limit fullStore (some 2) 20).fst = true
    ∧ (check_rate_limit fullStore (some 1) 20).snd 2 = fullStore 2
    ∧ (runChecks (fun _ => []) (some 1)
        ((List.range 16).map Int.ofNat)).fst
      = List.replicate 15 true ++ [false] :=
  C5_sliding_window_per_user fullStore 20 1 2 (by decide) (by decide) (by decide)
    (by decide) (by decide)

/-- C6: with an empty question list answer_form_questions returns the
empty dictionary, leaves the rate store untouched (no rate-limit
consumption) and makes no model call, whatever the other inputs. -/
theorem C6_empty_questions_no_call (modelPresent : Bool) (store : RateStore)
    (userId : Option Int) (now : Int) (jobDescription resumeText : String)
    (userProfile : List (String × String))
    (oracle : String → Option (String → Option String)) :
    (answer_form_questions modelPresent store userId now [] jobDescription
        resumeText userProfile oracle).answers = (fun _ => none)
    ∧ (answer_form_questions modelPresent store userId now [] jobDescription
        resumeText userProfile oracle).store = store
    ∧ (answer_form_questions modelPresent store userId now [] jobDescription
        resumeText userProfile oracle).callMade = false := by
  have h : answer_form_questions modelPresent store userId now [] jobDescription
      resumeText userProfile oracle = ⟨fun _ => none, store, false⟩ := by
    unfold answer_form_questions
    rw [if_pos (Or.inr rfl)]
  rw [h]
  exact ⟨rfl, rfl, rfl⟩

/-- C7: no failure of the gateway reaches the caller as an exception:
when the model call or the reply parsing raises (oracle none) the
returned dictionary is empty; a rate-limit refusal returns the empty
dictionary with no call made; analyze_job_match under an error returns
the id of the first candidate, and under a rate-limit refusal likewise,
instead of propagating anything. -/
theorem C7_errors_do_not_escape :
    (∀ (store : RateStore) (userId : Option Int) (now : Int)
      (questions : List Question) (jobDescription resumeText : String)
      (userProfile : List (String × String))
      (oracle : String → Option (String → Option String)),
      oracle (build_form_prompt questions jobDescription resumeText userProfile)
        = none →
      (answer_form_questions true store userId now questions jobDescription
          resumeText userProfile oracle).answers = (fun _ => none))
    ∧ (∀ (store : RateStore) (userId : Option Int) (now : Int)
      (questions : List Question) (jobDescription resumeText : String)
      (userProfile : List (String × String))
      (oracle : String → Option (String → Option String)),
      (check_rate_limit store userId now).fst = false →
      (answer_form_questions true store userId now questions jobDescription
          resumeText userProfile oracle).answers = (fun _ => none)
      ∧ (answer_form_questions true store userId now questions jobDescription
          resumeText userProfile oracle).callMade = false)
    ∧ (∀ (store : RateStore) (userId : Option Int) (now : Int)
      (r0 : ResumeData) (rest : List ResumeData),
      (analyze_job_match true store userId now (r0 :: rest) none).fst = some r0.id)
    ∧ (∀ (store : RateStore) (userId : Option Int) (now : Int)
      (r0 : ResumeData) (rest : List ResumeData) (aiReply : Option Int),
      (check_rate_limit store userId now).fst = false →
      (analyze_job_match true store userId now (r0 :: rest) aiReply).fst
        = some r0.id) := by
  refine ⟨?_, ?_, ?_, ?_⟩
  · intro store userId now questions jobDescription resumeText userProfile oracle h
    unfold answer_form_questions
    by_cases hq : questions = []
    · rw [if_pos (Or.inr hq)]
    · rw [if_neg (fun hcontra => hcontra.elim (fun h2 => Bool.noConfusion h2) hq)]
      by_cases hallow : (check_rate_limit store userId now).fst = false
      · rw [if_pos hallow]
      · rw [if_neg hallow, h]
  · intro store userId now questions jobDescription resumeText userProfile oracle h
    unfold answer_form_questions
    by_cases hq : questions = []
    · rw [if_pos (Or.inr hq)]
      exact ⟨rfl, rfl⟩
    · rw [if_neg (fun hcontra => hcontra.elim (fun h2 => Bool.noConfusion h2) hq)]
      rw [if_pos h]
      exact ⟨rfl, rfl⟩
  · intro store userId now r0 rest
    by_cases hallow : (check_rate_limit store userId now).fst = false
    · simp [analyze_job_match, hallow]
    · simp [analyze_job_match, hallow]
  · intro store userId now r0 rest aiReply h
    simp [analyze_job_match, h]

/-- C7 witness: the error-containment theorem applied at concrete
inputs: a failing oracle on one question, a saturated store for the
rate-limited parts, and one concrete candidate list. -/
theorem C7_errors_do_not_escape_witness :
    ((answer_form_questions true (fun _ => []) (some 3) 0 [witnessRadioQ]
        "jd" "res" [] (fun _ => none)).answers = (fun _ => none))
    ∧ ((answer_form_questions true fullStore (some 1) 20 [witnessRadioQ]
        "jd" "res" [] (fun _ => some witnessRadioRaw)).answers = (fun _ => none)
      ∧ (answer_form_questions true fullStore (some 1) 20 [witnessRadioQ]
        "jd" "res" [] (fun _ => some witnessRadioRaw)).callMade = false)
    ∧ ((analyze_job_match true (fun _ => []) (some 3) 0 [cand1, cand2] none).fst
        = some cand1.id)
    ∧ ((analyze_job_match true fullStore (some 1) 20 [cand1, cand2] (some 2)).fst
        = some cand1.id) :=
  ⟨C7_errors_do_not_escape.1 (fun _ => []) (some 3) 0 [witnessRadioQ]
      "jd" "res" [] (fun _ => none) rfl,
    C7_errors_do_not_escape.2.1 fullStore (some 1) 20 [witnessRadioQ]
      "jd" "res" [] (fun _ => some witnessRadioRaw) (by decide),
    C7_errors_do_not_escape.2.2.1 (fun _ => []) (some 3) 0 cand1 [cand2],
    C7_errors_do_not_escape.2.2.2 fullStore (some 1) 20 cand1 [cand2] (some 2)
      (by decide)⟩

/-- C8: closing the session is idempotent - running close_driver twice
leaves the same state as running it once - and running it when no driver
was ever opened is a no-op (and quits nothing); and on every task path
on which an applicator was created, driver initialisation raising or
not, the finally clause leaves the task with the driver closed. -/
theorem C8_close_driver_idempotent :
    (∀ a : Applicator, close_driver (close_driver a) = close_driver a)
    ∧ (∀ n : Nat, close_driver ⟨none, n⟩ = ⟨none, n⟩)
    ∧ (∀ (env : TaskRunEnv) (a : Applicator),
        task_final_applicator env = some a → a.driver = none) := by
  refine ⟨?_, ?_, ?_⟩
  · intro a
    cases h : a.driver with
    | none => simp [close_driver, h]
    | some d => simp [close_driver, h]
  · intro n
    rfl
  · intro env a h
    unfold task_final_applicator at h
    by_cases hr : env.recordsPresent = false
    · rw [if_pos hr] at h
      cases h
    · rw [if_neg hr] at h
      by_cases hi : env.initDriverOk = true
      · simp only [hi, if_true, close_driver, Option.some.injEq] at h
        subst h
        rfl
      · simp only [hi, if_false, close_driver, Option.some.injEq] at h
        subst h
        rfl

/-- C8 witness: the teardown theorem applied at the concrete run in
which the records are found and driver initialisation succeeds: the
final applicator has no driver (and quit ran exactly once). -/
theorem C8_close_driver_idempotent_witness :
    task_final_applicator ⟨true, true⟩ = some ⟨none, 1⟩
    ∧ (Applicator.mk none 1).driver = none :=
  ⟨rfl, C8_close_driver_idempotent.2.2 ⟨true, true⟩ ⟨none, 1⟩ rfl⟩

/-- C9: the prompt built by answer_form_questions is independent of the
linkedin_cookies entry of the profile: two profiles that agree outside
that key (equal sanitized profiles) produce the same prompt, and with
the same oracle the whole result of answer_form_questions is the same -
the authentication secret can not influence the prompt or the answers. -/
theorem C9_cookie_noninterference (modelPresent : Bool) (store : RateStore)
    (userId : Option Int) (now : Int) (questions : List Question)
    (jobDescription resumeText : String) (p1 p2 : List (String × String))
    (oracle : String → Option (String → Option String))
    (h : sanitize_profile p1 = sanitize_profile p2) :
    build_form_prompt questions jobDescription resumeText p1
      = build_form_prompt questions jobDescription resumeText p2
    ∧ answer_form_questions modelPresent store userId now questions
        jobDescription resumeText p1 oracle
      = answer_form_questions modelPresent store userId now questions
        jobDescription resumeText p2 oracle := by
  have hp : build_form_prompt questions jobDescription resumeText p1
      = build_form_prompt questions jobDescription resumeText p2 := by
    unfold build_form_prompt
    rw [h]
  refine ⟨hp, ?_⟩
  unfold answer_form_questions
  rw [hp]

/-- Two profiles differing only in the linkedin_cookies value, used to
witness the noninterference theorem. -/
def profileA : List (String × String) :=
  [("phone", "5551234"), ("linkedin_cookies", "secret-cookie-AAA"), ("location", "Kyiv")]

/-- Same profile as profileA with a different cookie value. -/
def profileB : List (String × String) :=
  [("phone", "5551234"), ("linkedin_cookies", "secret-cookie-BBB"), ("location", "Kyiv")]

/-- C9 witness: the noninterference theorem applied at two concrete
profiles that differ only in the cookie value. -/
theorem C9_cookie_noninterference_witness :
    build_form_prompt [witnessRadioQ] "jd" "res" profileA
      = build_form_prompt [witnessRadioQ] "jd" "res" profileB
    ∧ answer_form_questions true (fun _ => []) (some 5) 0 [witnessRadioQ]
        "jd" "res" profileA (fun _ => some witnessRadioRaw)
      = answer_form_questions true (fun _ => []) (some 5) 0 [witnessRadioQ]
        "jd" "res" profileB (fun _ => some witnessRadioRaw) :=
  C9_cookie_noninterference true (fun _ => []) (some 5) 0 [witnessRadioQ]
    "jd" "res" profileA profileB (fun _ => some witnessRadioRaw) (by decide)

/-- C10: with a falsy user id (None or the integer 0) the rate limiter
allows every call unconditionally and records nothing, and the usage
logger writes no row; with a truthy user id under the limit the check
allows the call and appends its timestamp to the window, and the usage
logger appends one row - limit and ledger apply only to truthy ids. -/
theorem C10_falsy_user_not_limited :
    (∀ (store : RateStore) (now : Int),
      check_rate_limit store none now = (true, store))
    ∧ (∀ (store : RateStore) (now : Int),
      check_rate_limit store (some 0) now = (true, store))
    ∧ (∀ (ledger : List UsageRecord) (st : String) (i o t : Nat)
        (status : String) (em : Option String),
      log_usage ledger none st i o t status em = ledger)
    ∧ (∀ (ledger : List UsageRecord) (st : String) (i o t : Nat)
        (status : String) (em : Option String),
      log_usage ledger (some 0) st i o t status em = ledger)
    ∧ (∀ (store : RateStore) (now : Int) (u : Int), u ≠ 0 →
      (purgeCalls now (store u)).length < RATE_LIMIT_MAX →
      (check_rate_limit store (some u) now).fst = true
      ∧ (check_rate_limit store (some u) now).snd u
          = purgeCalls now (store u) ++ [now])
    ∧ (∀ (ledger : List UsageRecord) (u : Int) (st : String) (i o t : Nat)
        (status : String) (em : Option String), u ≠ 0 →
      log_usage ledger (some u) st i o t status em
        = ledger ++ [⟨u, st, i, o, t, status, em⟩]) := by
  refine ⟨fun store now => rfl, fun store now => rfl,
    fun ledger st i o t status em => rfl, fun ledger st i o t status em => rfl,
    ?_, ?_⟩
  · intro store now u hu hlen
    simp only [check_rate_limit, if_neg hu]
    rw [if_neg (by omega)]
    exact ⟨rfl, by simp⟩
  · intro ledger u st i o t status em hu
    simp [log_usage, hu]

/-- C10 witness: the falsy-user theorem applied with user 5 under the
limit at the empty store, and a one-row ledger append. -/
theorem C10_falsy_user_not_limited_witness :
    ((check_rate_limit (fun _ => []) (some 5) 0).fst = true
      ∧ (check_rate_limit (fun _ => []) (some 5) 0).snd 5
          = purgeCalls 0 ((fun _ => ([] : List Int)) 5) ++ [0])
    ∧ log_usage [] (some 5) "form_questions" 1 2 3 "success" none
        = [] ++ [⟨5, "form_questions", 1, 2, 3, "success", none⟩] :=
  ⟨C10_falsy_user_not_limited.2.2.2.2.1 (fun _ => []) 0 5 (by decide) (by decide),
    C10_falsy_user_not_limited.2.2.2.2.2 [] 5 "form_questions" 1 2 3 "success" none
      (by decide)⟩
